import Mathlib

set_option maxRecDepth 100000

/-!
Verification of the governed mission runtime of `sovereign-robotics-ops`.

The development shallowly embeds the Python sources of the repository:

* `backend/app/utils/hashing.py` — canonical JSON + SHA-256 hasher;
* `backend/app/services/run_service.py` — event append (hash chain) and the
  run-loop speed clamp;
* `backend/app/services/replay_service.py` — `verify_chain`;
* `backend/app/policies/rules_python.py` — `evaluate_policies`;
* `backend/app/services/agentic_planner.py` — the ReAct planner loop.

Machine reals (Python floats) are embedded as exact rationals `ℚ`; all the
policy thresholds and the concrete inputs used below are far from any binary
rounding boundary, so each comparison in the source agrees with its rational
counterpart.  Bytes are embedded as natural numbers below 256 and 32-bit
machine words as natural numbers reduced modulo `2^32` at every operation.
-/

namespace SovereignOps

/-! ## SHA-256 over byte lists

A complete executable embedding of the SHA-256 function used by
`hashlib.sha256` in `backend/app/utils/hashing.py`.  A message is a list of
bytes (naturals below 256); words are naturals kept below `2^32` by `w32`. -/

/-- Reduce modulo `2^32`, the word size of SHA-256. -/
def w32 (x : ℕ) : ℕ := x % 4294967296

/-- Rotate a 32-bit word right by `k` bits. -/
def rotr32 (k x : ℕ) : ℕ := (x >>> k) + ((x % (1 <<< k)) <<< (32 - k))

/-- Choice function of the SHA-256 compression rounds. -/
def shaCh (x y z : ℕ) : ℕ := (x &&& y) ^^^ ((x ^^^ 4294967295) &&& z)

/-- Majority function of the SHA-256 compression rounds. -/
def shaMaj (x y z : ℕ) : ℕ := (x &&& y) ^^^ (x &&& z) ^^^ (y &&& z)

/-- Big sigma-0 of SHA-256. -/
def bsig0 (x : ℕ) : ℕ := rotr32 2 x ^^^ rotr32 13 x ^^^ rotr32 22 x

/-- Big sigma-1 of SHA-256. -/
def bsig1 (x : ℕ) : ℕ := rotr32 6 x ^^^ rotr32 11 x ^^^ rotr32 25 x

/-- Small sigma-0 of SHA-256 (message schedule). -/
def ssig0 (x : ℕ) : ℕ := rotr32 7 x ^^^ rotr32 18 x ^^^ (x >>> 3)

/-- Small sigma-1 of SHA-256 (message schedule). -/
def ssig1 (x : ℕ) : ℕ := rotr32 17 x ^^^ rotr32 19 x ^^^ (x >>> 10)

/-- Round constants of SHA-256 (FIPS 180-4: the fractional parts of the cube
roots of the first 64 primes), in decimal. -/
def shaK : List ℕ :=
  [1116352408, 1899447441, 3049323471, 3921009573, 961987163, 1508970993,
   2453635748, 2870763221, 3624381080, 310598401, 607225278, 1426881987,
   1925078388, 2162078206, 2614888103, 3248222580, 3835390401, 4022224774,
   264347078, 604807628, 770255983, 1249150122, 1555081692, 1996064986,
   2554220882, 2821834349, 2952996808, 3210313671, 3336571891, 3584528711,
   113926993, 338241895, 666307205, 773529912, 1294757372, 1396182291,
   1695183700, 1986661051, 2177026350, 2456956037, 2730485921, 2820302411,
   3259730800, 3345764771, 3516065817, 3600352804, 4094571909, 275423344,
   430227734, 506948616, 659060556, 883997877, 958139571, 1322822218,
   1537002063, 1747873779, 1955562222, 2024104815, 2227730452, 2361852424,
   2428436474, 2756734187, 3204031479, 3329325298]

/-- Working state of the SHA-256 compression function: eight 32-bit words. -/
structure Hash8 where
  a : ℕ
  b : ℕ
  c : ℕ
  d : ℕ
  e : ℕ
  f : ℕ
  g : ℕ
  h : ℕ
deriving Repr, DecidableEq

/-- Initial hash value of SHA-256 (FIPS 180-4), in decimal. -/
def shaH0 : Hash8 :=
  ⟨1779033703, 3144134277, 1013904242, 2773480762,
   1359893119, 2600822924, 528734635, 1541459225⟩

/-- One SHA-256 compression round with round constant `k` and schedule word `w`. -/
def shaRound (st : Hash8) (k w : ℕ) : Hash8 :=
  let t1 := w32 (st.h + bsig1 st.e + shaCh st.e st.f st.g + k + w)
  let t2 := w32 (bsig0 st.a + shaMaj st.a st.b st.c)
  ⟨w32 (t1 + t2), st.a, st.b, st.c, w32 (st.d + t1), st.e, st.f, st.g⟩

/-- Extend the message schedule: prepend `n` more words to the reversed
schedule accumulator. -/
def extendW : ℕ → List ℕ → List ℕ
  | 0, acc => acc.reverse
  | n + 1, acc =>
      extendW n
        (w32 (ssig1 (acc.getD 1 0) + acc.getD 6 0 + ssig0 (acc.getD 14 0)
          + acc.getD 15 0) :: acc)

/-- Full 64-word message schedule from the 16 words of one block. -/
def schedule (ws : List ℕ) : List ℕ := extendW 48 ws.reverse

/-- Group a byte list into big-endian 32-bit words. -/
def bytesToWords : List ℕ → List ℕ
  | b0 :: b1 :: b2 :: b3 :: rest =>
      (((b0 * 256 + b1) * 256 + b2) * 256 + b3) :: bytesToWords rest
  | _ => []

/-- Process one 64-byte block. -/
def processBlock (st : Hash8) (block : List ℕ) : Hash8 :=
  let ws := schedule (bytesToWords block)
  let r := (List.zip shaK ws).foldl (fun s kw => shaRound s kw.1 kw.2) st
  ⟨w32 (st.a + r.a), w32 (st.b + r.b), w32 (st.c + r.c), w32 (st.d + r.d),
   w32 (st.e + r.e), w32 (st.f + r.f), w32 (st.g + r.g), w32 (st.h + r.h)⟩

/-- Big-endian 8-byte rendering of a length-in-bits value. -/
def be64 (n : ℕ) : List ℕ :=
  [n >>> 56 % 256, n >>> 48 % 256, n >>> 40 % 256, n >>> 32 % 256,
   n >>> 24 % 256, n >>> 16 % 256, n >>> 8 % 256, n % 256]

/-- SHA-256 padding: a `0x80` byte, zeros to 56 mod 64, then the bit length. -/
def padMessage (msg : List ℕ) : List ℕ :=
  let L := msg.length
  let r := (L + 1) % 64
  let z := if r ≤ 56 then 56 - r else 64 + 56 - r
  msg ++ [0x80] ++ List.replicate z 0 ++ be64 (8 * L)

/-- Split a list into chunks of 64 elements (fuelled by the list length). -/
def chunksAux : ℕ → List ℕ → List (List ℕ)
  | 0, _ => []
  | _, [] => []
  | fuel + 1, l => l.take 64 :: chunksAux fuel (l.drop 64)

/-- Split a byte list into 64-byte blocks. -/
def chunks64 (l : List ℕ) : List (List ℕ) := chunksAux l.length l

/-- SHA-256 of a byte list, as the final eight-word state. -/
def sha256bytes (msg : List ℕ) : Hash8 :=
  (chunks64 (padMessage msg)).foldl processBlock shaH0

/-- Big-endian byte rendering of one 32-bit word. -/
def wordBE (w : ℕ) : List ℕ := [w >>> 24 % 256, w >>> 16 % 256, w >>> 8 % 256, w % 256]

/-- The 32 digest bytes of a final SHA-256 state. -/
def digestBytes (st : Hash8) : List ℕ :=
  ([st.a, st.b, st.c, st.d, st.e, st.f, st.g, st.h]).flatMap wordBE

/-- Lowercase hexadecimal digit characters. -/
def hexChars : List Char := "0123456789abcdef".data

/-- Lowercase hexadecimal digit for a value (taken modulo 16). -/
def hexChar (n : ℕ) : Char := hexChars.getD (n % 16) '0'

/-- Two lowercase hexadecimal characters of one byte. -/
def byteHex (b : ℕ) : List Char := [hexChar (b / 16), hexChar b]

/-- Lowercase hexadecimal digest string, as `hashlib`'s `hexdigest()` renders it. -/
def hexdigest (st : Hash8) : String := String.mk ((digestBytes st).flatMap byteHex)

/-- SHA-256 of a byte list as a lowercase hex string. -/
def sha256hex (msg : List ℕ) : String := hexdigest (sha256bytes msg)

/-! ## Exact rational helpers

Mathlib's `ℚ` field operations do not reduce inside the kernel, so the
embedding builds every rational constant with `mkRat` and uses the helpers
below (defined from `Int`/`Nat` arithmetic, which does reduce) wherever the
source subtracts or negates floats.  Each helper is proved equal to the
corresponding Mathlib operation, so symbolic proofs can switch freely. -/

/-- Subtraction of rationals through integer arithmetic. -/
def qSub (a b : ℚ) : ℚ := mkRat (a.num * b.den - b.num * a.den) (a.den * b.den)

/-- Negation of a rational through integer arithmetic. -/
def qNeg (a : ℚ) : ℚ := mkRat (-a.num) a.den

/-- Absolute value of a rational through integer arithmetic. -/
def qAbs (a : ℚ) : ℚ := if a < 0 then qNeg a else a

theorem qNeg_eq (a : ℚ) : qNeg a = -a := by
  rw [qNeg, ← Rat.neg_mkRat, Rat.mkRat_self]

theorem qSub_eq (a b : ℚ) : qSub a b = a - b := by
  rw [qSub, Rat.mkRat_eq_div]
  push_cast
  conv_rhs => rw [← Rat.num_div_den a, ← Rat.num_div_den b]
  rw [div_sub_div _ _ (by positivity) (by positivity)]
  ring_nf

theorem qAbs_eq (a : ℚ) : qAbs a = |a| := by
  rw [qAbs]
  split_ifs with h
  · rw [abs_of_neg h, qNeg_eq]
  · rw [abs_of_nonneg (le_of_not_lt h)]

/-- Standard test vector: SHA-256 of the empty message. -/
theorem sha256_empty_vector :
    sha256hex [] = "e3b0c44298fc1c149afbf4c8996fb92427ae41e4649b934ca495991b7852b855" := by
  decide

/-- Standard test vector: SHA-256 of the ASCII bytes of "abc". -/
theorem sha256_abc_vector :
    sha256hex [0x61, 0x62, 0x63] =
      "ba7816bf8f01cfea414140de5dae2223b00361a396177a9cb410ff61f20015ad" := by
  decide

/-! ## Canonical JSON (`json.dumps(obj, sort_keys=True, separators=(",", ":"), ensure_ascii=False)`)

The JSON values the runtime hashes.  Python renders `int` payload numbers in
decimal; the embedding's `num` constructor carries an `Int` (the float `repr`
rendering of non-integral numbers plays no role in any claim below, and every
concrete payload used in this development is built from integers, strings,
booleans and nesting). -/

inductive Json where
  | null : Json
  | bool (b : Bool) : Json
  | num (n : Int) : Json
  | str (s : String) : Json
  | arr (xs : List Json) : Json
  | obj (kvs : List (String × Json)) : Json
deriving Repr

/-- Lexicographic comparison of character lists by code point, the order
Python's `sorted` uses on `str` keys. -/
def charListLt : List Char → List Char → Bool
  | [], [] => false
  | [], _ :: _ => true
  | _ :: _, [] => false
  | c :: cs, d :: ds =>
      if c.toNat < d.toNat then true
      else if d.toNat < c.toNat then false
      else charListLt cs ds

/-- Code-point lexicographic strict order on strings. -/
def strLt (a b : String) : Bool := charListLt a.data b.data

/-- Insert one key-value pair into a key-sorted list. -/
def insKv (kv : String × Json) : List (String × Json) → List (String × Json)
  | [] => [kv]
  | a :: as => if strLt kv.1 a.1 then kv :: a :: as else a :: insKv kv as

/-- Sort key-value pairs by key (insertion sort; object keys are unique in
every value produced by the runtime, so stability is irrelevant). -/
def sortKv : List (String × Json) → List (String × Json)
  | [] => []
  | a :: as => insKv a (sortKv as)

/-- Escape one character the way `json.dumps(..., ensure_ascii=False)` does:
quote, backslash, the five named control escapes, `\u00XX` for the remaining
control characters, and everything else verbatim. -/
def escapeChar (c : Char) : String :=
  if c = '"' then "\\\""
  else if c = '\\' then "\\\\"
  else if c = '\n' then "\\n"
  else if c = '\r' then "\\r"
  else if c = '\t' then "\\t"
  else if c.toNat = 8 then "\\b"
  else if c.toNat = 12 then "\\f"
  else if c.toNat < 32 then "\\u00" ++ String.mk (byteHex c.toNat)
  else String.singleton c

/-- JSON string literal with escapes. -/
def jsonEscape (s : String) : String :=
  "\"" ++ String.join (s.data.map escapeChar) ++ "\""

mutual
/-- Structural size of a JSON value, used as recursion fuel. -/
def jsize : Json → ℕ
  | Json.null => 1
  | Json.bool _ => 1
  | Json.num _ => 1
  | Json.str _ => 1
  | Json.arr xs => 1 + jsizeList xs
  | Json.obj kvs => 1 + jsizePairs kvs

/-- Structural size of a list of JSON values. -/
def jsizeList : List Json → ℕ
  | [] => 0
  | x :: xs => 1 + jsize x + jsizeList xs

/-- Structural size of a list of JSON key-value pairs. -/
def jsizePairs : List (String × Json) → ℕ
  | [] => 0
  | kv :: rest => 1 + jsize kv.2 + jsizePairs rest
end

/-- Canonical serialization, fuelled so that the recursion is structural on a
natural number and therefore evaluates inside the kernel.  The fuel is always
instantiated with `jsize j`, which strictly exceeds the nesting the recursion
consumes, so the `0` case is unreachable. -/
def canonicalF : ℕ → Json → String
  | 0, _ => ""
  | fuel + 1, j =>
      match j with
      | Json.null => "null"
      | Json.bool true => "true"
      | Json.bool false => "false"
      | Json.num n => toString n
      | Json.str s => jsonEscape s
      | Json.arr xs =>
          "[" ++ String.intercalate "," (xs.map (canonicalF fuel)) ++ "]"
      | Json.obj kvs =>
          "\x7b" ++ String.intercalate ","
            ((sortKv kvs).map (fun kv => jsonEscape kv.1 ++ ":" ++ canonicalF fuel kv.2))
            ++ "\x7d"

/-- Canonical JSON text: sorted keys at every nesting level, separators
`(",", ":")` with no whitespace, UTF-8 kept verbatim. -/
def canonical (j : Json) : String := canonicalF (jsize j) j

/-- UTF-8 encoding of one character from its code point. -/
def utf8EncodeChar (c : Char) : List ℕ :=
  let n := c.toNat
  if n < 128 then [n]
  else if n < 2048 then [192 + n / 64, 128 + n % 64]
  else if n < 65536 then [224 + n / 4096, 128 + (n / 64) % 64, 128 + n % 64]
  else [240 + n / 262144, 128 + (n / 4096) % 64, 128 + (n / 64) % 64, 128 + n % 64]

/-- UTF-8 bytes of a string (no BOM), matching `.encode("utf-8")`. -/
def utf8Encode (s : String) : List ℕ := s.data.flatMap utf8EncodeChar

/-- The hasher of `backend/app/utils/hashing.py`: SHA-256 over the canonical
JSON serialization, rendered as the string `"sha256:"` followed by the
lowercase hex digest. -/
def sha256_canonical (j : Json) : String :=
  "sha256:" ++ sha256hex (utf8Encode (canonical j))

/-- The 64-character zero hash `"0" * 64` used for the first event of a run. -/
def zeroHash : String :=
  "0000000000000000000000000000000000000000000000000000000000000000"

/-- Sanity check: canonical serialization sorts keys and uses tight separators. -/
theorem canonical_example :
    canonical (Json.obj [("b", Json.num 1), ("a", Json.str "x")])
      = "\x7b\"a\":\"x\",\"b\":1\x7d" := by
  decide

/-! ## Event store (`RunService._append_event`, `run_service.py` lines 73-102)

One stored event row of a single run's chain.  The DB row also carries `id`
(an opaque `new_id("evt")` token) and `run_id` (constant across one run's
store, which the append query filters on); neither participates in the chain
linkage, so the row model keeps `run_id` as an external parameter and elides
`id`.  The `datetime` column `ts` is embedded as a natural number and its
`isoformat()` rendering inside the hash input as the decimal rendering —
both are injective and strictly order-preserving, which is all the chain
uses. -/

structure EventRow where
  ts : ℕ
  type : String
  payload : Json
  prev_hash : String
  hash : String

/-- Rendering of a timestamp used inside the hash input (`ts.isoformat()`). -/
def tsString (n : ℕ) : String := toString n

/-- The dict hashed by `_append_event`:
`{"run_id": ..., "ts": ..., "type": ..., "payload": ..., "prev_hash": ...}`. -/
def eventHashInput (runId : String) (ts : ℕ) (etype : String) (payload : Json)
    (prevHash : String) : Json :=
  Json.obj [("run_id", Json.str runId), ("ts", Json.str (tsString ts)),
    ("type", Json.str etype), ("payload", payload), ("prev_hash", Json.str prevHash)]

/-- The query `db.query(Event).filter(run_id).order_by(Event.ts.desc()).first()`:
the stored row with the greatest timestamp (first encountered wins ties; the
theorems below only invoke it on stores with strictly increasing timestamps,
where ties cannot arise). -/
def lastByTsDesc (st : List EventRow) : Option EventRow :=
  st.foldl
    (fun acc e =>
      match acc with
      | none => some e
      | some a => if a.ts < e.ts then some e else some a)
    none

/-- `RunService._append_event`: read the last event's hash (zero hash if the
run has none), build the event dict with a single timestamp, hash it
canonically, and insert the new row. -/
def _append_event (runId : String) (st : List EventRow) (ts : ℕ) (etype : String)
    (payload : Json) : List EventRow :=
  let prev_hash :=
    match lastByTsDesc st with
    | some p => p.hash
    | none => zeroHash
  st ++ [{ ts := ts, type := etype, payload := payload, prev_hash := prev_hash,
           hash := sha256_canonical (eventHashInput runId ts etype payload prev_hash) }]

/-- A run's event store after a sequence of appends `(ts, type, payload)`
starting from the empty store. -/
def runAppends (runId : String) (inps : List (ℕ × String × Json)) : List EventRow :=
  inps.foldl (fun st i => _append_event runId st i.1 i.2.1 i.2.2) []

/-- One row's stored hash re-derives from its own fields. -/
def hashOk (runId : String) (e : EventRow) : Bool :=
  e.hash == sha256_canonical (eventHashInput runId e.ts e.type e.payload e.prev_hash)

/-- Hash-chain predicate relative to the expected previous hash `ph`: each
row links to its predecessor and its stored hash re-derives. -/
def chainFrom (runId : String) : String → List EventRow → Bool
  | _, [] => true
  | ph, e :: rest => (e.prev_hash == ph) && hashOk runId e && chainFrom runId e.hash rest

/-- Full hash-chain predicate: the first row's `prev_hash` is the zero hash,
each later row's `prev_hash` is the previous row's `hash`, and every stored
`hash` re-derives from the row's own fields. -/
def chainOk (runId : String) (es : List EventRow) : Bool := chainFrom runId zeroHash es

/-- The hash a new row must link to after `st`, starting from `ph`. -/
def lastHash (ph : String) (st : List EventRow) : String :=
  match st.getLast? with
  | none => ph
  | some x => x.hash

theorem lastByTsDesc_aux (l : List EventRow) :
    ∀ a : EventRow, (l.map EventRow.ts).Pairwise (· < ·) → (∀ x ∈ l, a.ts < x.ts) →
      l.foldl
        (fun acc e =>
          match acc with
          | none => some e
          | some a => if a.ts < e.ts then some e else some a)
        (some a) = (a :: l).getLast? := by
  induction l with
  | nil => intro a _ _; rfl
  | cons b bs ih =>
      intro a hp hb
      have hab : a.ts < b.ts := hb b (by simp)
      have hp' : (bs.map EventRow.ts).Pairwise (· < ·) := by
        simpa using hp.sublist ((List.sublist_cons_self _ _).map _)
      have hbbs : ∀ x ∈ bs, b.ts < x.ts := by
        intro x hx
        have := List.rel_of_pairwise_cons (by simpa using hp) (List.mem_map_of_mem EventRow.ts hx)
        simpa using this
      simp only [List.foldl_cons, if_pos hab]
      rw [ih b hp' hbbs, List.getLast?_cons_cons]

theorem lastByTsDesc_eq_getLast (st : List EventRow)
    (h : (st.map EventRow.ts).Pairwise (· < ·)) : lastByTsDesc st = st.getLast? := by
  cases st with
  | nil => rfl
  | cons a as =>
      have hp : (as.map EventRow.ts).Pairwise (· < ·) := by
        simpa using h.sublist ((List.sublist_cons_self _ _).map _)
      have ha : ∀ x ∈ as, a.ts < x.ts := by
        intro x hx
        have := List.rel_of_pairwise_cons (by simpa using h) (List.mem_map_of_mem EventRow.ts hx)
        simpa using this
      simpa [lastByTsDesc] using lastByTsDesc_aux as a hp ha

theorem lastHash_cons (ph : String) (b : EventRow) (bs : List EventRow) :
    lastHash ph (b :: bs) = lastHash b.hash bs := by
  cases bs with
  | nil => simp [lastHash]
  | cons c cs =>
      rcases h : (c :: cs).getLast? with _ | x
      · simp at h
      · simp [lastHash, List.getLast?_cons_cons, h]

theorem chainFrom_append (runId : String) (e : EventRow) :
    ∀ (st : List EventRow) (ph : String),
      (chainFrom runId ph (st ++ [e]) = true ↔
        chainFrom runId ph st = true ∧ e.prev_hash = lastHash ph st ∧ hashOk runId e = true) := by
  intro st
  induction st with
  | nil =>
      intro ph
      simp [chainFrom, lastHash, and_comm]
  | cons b bs ih =>
      intro ph
      simp only [List.cons_append, chainFrom, Bool.and_eq_true, List.append_eq]
      rw [ih b.hash, lastHash_cons]
      tauto

theorem runAppends_aux (runId : String) :
    ∀ (inps : List (ℕ × String × Json)) (st : List EventRow),
      (st.map EventRow.ts).Pairwise (· < ·) →
      chainOk runId st = true →
      (∀ e ∈ st, ∀ i ∈ inps, e.ts < i.1) →
      (inps.map Prod.fst).Pairwise (· < ·) →
      ((inps.foldl (fun st i => _append_event runId st i.1 i.2.1 i.2.2) st).map
          EventRow.ts).Pairwise (· < ·) ∧
        chainOk runId (inps.foldl (fun st i => _append_event runId st i.1 i.2.1 i.2.2) st)
          = true := by
  intro inps
  induction inps with
  | nil => intro st h1 h2 _ _; exact ⟨h1, h2⟩
  | cons i rest ih =>
      intro st h1 h2 h3 h4
      set e : EventRow :=
        { ts := i.1, type := i.2.1, payload := i.2.2,
          prev_hash := lastHash zeroHash st,
          hash := sha256_canonical
            (eventHashInput runId i.1 i.2.1 i.2.2 (lastHash zeroHash st)) } with he
      have happ : _append_event runId st i.1 i.2.1 i.2.2 = st ++ [e] := by
        rw [_append_event, lastByTsDesc_eq_getLast st h1]
        cases hst : st.getLast? <;> simp [he, lastHash, hst]
      have hlt : ∀ x ∈ st, x.ts < i.1 := fun x hx => h3 x hx i (by simp)
      have h1' : ((st ++ [e]).map EventRow.ts).Pairwise (· < ·) := by
        rw [List.map_append, List.pairwise_append]
        refine ⟨h1, by simp, ?_⟩
        intro a ha b hb
        simp only [List.map_cons, List.map_nil, List.mem_singleton] at hb
        subst hb
        obtain ⟨x, hx, rfl⟩ := List.mem_map.mp ha
        exact hlt x hx
      have h2' : chainOk runId (st ++ [e]) = true := by
        rw [chainOk, chainFrom_append]
        refine ⟨h2, rfl, ?_⟩
        simp [hashOk, he]
      have h3' : ∀ x ∈ st ++ [e], ∀ j ∈ rest, x.ts < j.1 := by
        intro x hx j hj
        rcases List.mem_append.mp hx with hx | hx
        · exact h3 x hx j (by simp [hj])
        · have hij : i.1 < j.1 := by
            have := List.rel_of_pairwise_cons (by simpa using h4)
              (List.mem_map_of_mem Prod.fst hj)
            simpa using this
          simp only [List.mem_singleton] at hx
          subst hx
          simpa [he] using hij
      have h4' : (rest.map Prod.fst).Pairwise (· < ·) := by
        simpa using h4.sublist ((List.sublist_cons_self _ _).map _)
      have := ih (st ++ [e]) h1' h2' h3' h4'
      simpa [happ] using this

/-- C1.  For every run, appending events through `_append_event` with strictly
increasing timestamps yields a store whose rows, in timestamp order, form a
hash chain: the first row's `prev_hash` is the 64-character zero hash, every
later row's `prev_hash` equals the hash of the row immediately before it, and
every stored hash re-derives from the row's own fields — because each append
reads the run's last stored event and uses its hash as the new `prev_hash`. -/
theorem run_chain_invariant (runId : String) (inps : List (ℕ × String × Json))
    (hts : (inps.map Prod.fst).Pairwise (· < ·)) :
    ((runAppends runId inps).map EventRow.ts).Pairwise (· < ·) ∧
      chainOk runId (runAppends runId inps) = true := by
  have := runAppends_aux runId inps [] (by simp) rfl (by simp) hts
  simpa [runAppends] using this

/-- Two concrete appends used to witness the chain invariant. -/
def demoInps : List (ℕ × String × Json) :=
  [(0, "DECISION", Json.obj [("speed", Json.num 3)]),
   (1, "EXECUTION", Json.obj [("ok", Json.bool true)])]

/-- Witness for C1 at a concrete two-event run. -/
theorem run_chain_invariant_witness :
    ((runAppends "run-1" demoInps).map EventRow.ts).Pairwise (· < ·) ∧
      chainOk "run-1" (runAppends "run-1" demoInps) = true :=
  run_chain_invariant "run-1" demoInps (by decide)

/-! ## Replay service (`replay_service.py`)

`get_run_timeline` serializes each stored row into a dict
`{id, ts, type, payload, hash, prev_hash}` (defaulting a missing `prev_hash`
to the zero hash), and `verify_chain` walks that list.  Every key is present
in every dict the service builds, so the timeline event is a plain record. -/

structure TimelineEvent where
  id : String
  ts : String
  type : String
  payload : Json
  hash : String
  prev_hash : String

/-- The loop of `verify_chain`: each event's `prev_hash` must equal the hash
of the event before it (`prev` carries that hash along). -/
def linkedFrom : String → List TimelineEvent → Bool
  | _, [] => true
  | prev, e :: rest => (e.prev_hash == prev) && linkedFrom e.hash rest

/-- `verify_chain` (`replay_service.py` lines 90-109): an empty list verifies;
otherwise the first event's `prev_hash` must be the zero hash and each
subsequent event's `prev_hash` must equal the previous event's `hash`. -/
def verify_chain : List TimelineEvent → Bool
  | [] => true
  | e0 :: rest => (e0.prev_hash == zeroHash) && linkedFrom e0.hash rest

theorem linkedFrom_iff_chain (rest : List TimelineEvent) :
    ∀ a : TimelineEvent, linkedFrom a.hash rest = true ↔
      List.Chain' (fun x y => y.prev_hash = x.hash) (a :: rest) := by
  induction rest with
  | nil => intro a; simp [linkedFrom]
  | cons b bs ih =>
      intro a
      simp only [linkedFrom, Bool.and_eq_true, beq_iff_eq, List.chain'_cons, ih b]

/-- C2 (amended).  `verify_chain` checks linkage only: it returns `true`
exactly when the first event's `prev_hash` is the 64-character zero hash and
each subsequent event's `prev_hash` equals the previous event's stored `hash`.
No stored hash is ever re-derived from the event's payload. -/
theorem verify_chain_linkage_only (es : List TimelineEvent) :
    verify_chain es = true ↔
      (∀ e ∈ es.head?, e.prev_hash = zeroHash) ∧
        List.Chain' (fun x y => y.prev_hash = x.hash) es := by
  cases es with
  | nil => simp [verify_chain]
  | cons e0 rest =>
      simp only [verify_chain, Bool.and_eq_true, beq_iff_eq, Option.mem_def,
        List.head?_cons, Option.some.injEq, forall_eq', linkedFrom_iff_chain rest e0]

/-- Payload of the first demo event. -/
def demoPayload1 : Json := Json.obj [("speed", Json.num 3)]

/-- Tampered variant of `demoPayload1` (the serialized byte stream differs,
so bits of the first event's payload have been flipped). -/
def demoPayload1T : Json := Json.obj [("speed", Json.num 2)]

/-- Stored hash of the first demo event. -/
def demoHash1 : String :=
  sha256_canonical (eventHashInput "run-1" 0 "DECISION" demoPayload1 zeroHash)

/-- Payload of the second demo event. -/
def demoPayload2 : Json := Json.obj [("ok", Json.bool true)]

/-- Stored hash of the second demo event, linking to the first. -/
def demoHash2 : String :=
  sha256_canonical (eventHashInput "run-1" 1 "EXECUTION" demoPayload2 demoHash1)

/-- The two-event timeline with the first payload tampered and both stored
hashes and the linkage left unchanged. -/
def tamperedTimeline : List TimelineEvent :=
  [{ id := "evt-1", ts := "0", type := "DECISION", payload := demoPayload1T,
     hash := demoHash1, prev_hash := zeroHash },
   { id := "evt-2", ts := "1", type := "EXECUTION", payload := demoPayload2,
     hash := demoHash2, prev_hash := demoHash1 }]

/-- C2 counterexample.  Tampering the first event's payload while leaving both
stored hashes and the linkage unchanged leaves `verify_chain` returning
`true` — the claim predicts `false` — precisely because the stored hash no
longer re-derives from the tampered payload (second conjunct), and
`verify_chain` never re-derives it. -/
theorem verify_chain_tamper_counterexample :
    verify_chain tamperedTimeline = true ∧
      sha256_canonical (eventHashInput "run-1" 0 "DECISION" demoPayload1T zeroHash)
        ≠ demoHash1 := by
  constructor
  · decide
  · decide

/-! ## Digest format (`hashing.py` lines 8-11) -/

theorem hexChar_mem (n : ℕ) : hexChar n ∈ hexChars := by
  have h : n % 16 < hexChars.length := by
    have : n % 16 < 16 := Nat.mod_lt _ (by omega)
    simpa [hexChars] using this
  rw [hexChar, List.getD_eq_getElem hexChars '0' h]
  exact List.getElem_mem h

theorem hexdigest_length (st : Hash8) : (hexdigest st).length = 64 := rfl

theorem hexdigest_chars (st : Hash8) :
    ∀ c ∈ (hexdigest st).data, c ∈ hexChars := by
  intro c hc
  have hc' : c ∈ (digestBytes st).flatMap byteHex := hc
  obtain ⟨b, _, hb⟩ := List.mem_flatMap.mp hc'
  simp only [byteHex, List.mem_cons, List.mem_singleton, List.not_mem_nil, or_false] at hb
  rcases hb with rfl | rfl <;> exact hexChar_mem _

/-- C4 (amended).  Every hash the canonical hasher produces (and hence every
hash `_append_event` stores) is the 7-character prefix `"sha256:"` followed by
the 64 lowercase hexadecimal characters of the SHA-256 digest of the
canonical JSON serialization — 71 characters in total, not a bare 64. -/
theorem sha256_canonical_format (j : Json) :
    sha256_canonical j = "sha256:" ++ sha256hex (utf8Encode (canonical j)) ∧
      (sha256hex (utf8Encode (canonical j))).length = 64 ∧
      (∀ c ∈ (sha256hex (utf8Encode (canonical j))).data, c ∈ hexChars) ∧
      (sha256_canonical j).length = 71 := by
  refine ⟨rfl, hexdigest_length _, hexdigest_chars _, ?_⟩
  have h : (sha256_canonical j).length
      = ("sha256:".length + (sha256hex (utf8Encode (canonical j))).length) := by
    simp [sha256_canonical]
  rw [h, show "sha256:".length = 7 from rfl,
    show sha256hex (utf8Encode (canonical j))
      = hexdigest (sha256bytes (utf8Encode (canonical j))) from rfl,
    hexdigest_length]

/-- C4 counterexample.  The stored hash of a concrete appended event has
length 71 — the `"sha256:"` prefix plus 64 hex characters — so it is not
rendered as exactly 64 hexadecimal characters. -/
theorem sha256_canonical_not_64_hex_counterexample :
    ((runAppends "run-1" demoInps).head?.map (fun e => e.hash.length)) = some 71 ∧
      (71 : ℕ) ≠ 64 := by
  exact ⟨by decide, by decide⟩

/-! ## Policy evaluator (`backend/app/policies/rules_python.py`)

Telemetry as the evaluator reads it (lines 43-64).  Each field carries the
`.get` default of the source, so a "missing key" is the default value.  The
fold over `telemetry["walking_humans"]` (lines 51-64) computes the nearest
worker's Euclidean distance and confidence; its output is embedded as the two
fields `nearest_worker_dist` / `nearest_worker_conf` (initial values 999 and
0.0 when the list is empty), since the square root itself plays no role in
any policy comparison verified here. -/

structure Telemetry where
  x : ℚ := 0
  y : ℚ := 0
  zone : String := "aisle"
  nearest_obstacle_m : ℚ := 999
  human_detected : Bool := false
  human_conf : ℚ := 0
  human_distance_m : ℚ := 999
  nearest_worker_dist : ℚ := 999
  nearest_worker_conf : ℚ := 0

/-- Proposal params dict; a `none` field is an absent key, read through the
source's `.get` defaults. -/
structure Params where
  x : Option ℚ := none
  y : Option ℚ := none
  max_speed : Option ℚ := none

/-- `ActionProposal` (`schemas/governance.py`): intent, params, rationale. -/
structure ActionProposal where
  intent : String := "MOVE_TO"
  params : Params := {}
  rationale : String := ""

/-- The decision record as `evaluate_policies` constructs it.  Note: the
pydantic `GovernanceDecision` schema (`schemas/governance.py` lines 16-21)
does not declare `policy_state`; the evaluator nevertheless passes the value,
and the embedding records it as constructed. -/
structure GovernanceDecision where
  decision : String
  policy_hits : List String
  reasons : List String
  required_action : Option String
  risk_score : ℚ
  policy_state : String

/-- Geofence constants (line 8). -/
def GEOFENCE.min_x : ℚ := 0
def GEOFENCE.max_x : ℚ := 40
def GEOFENCE.min_y : ℚ := 0
def GEOFENCE.max_y : ℚ := 25

/-- `ZONE_SPEED_LIMITS.get(zone, 0.5)` (lines 10-14 and 135). -/
def ZONE_SPEED_LIMITS (zone : String) : ℚ :=
  if zone = "aisle" then mkRat 1 2
  else if zone = "corridor" then mkRat 7 10
  else if zone = "loading_bay" then mkRat 2 5
  else mkRat 1 2

def MIN_OBSTACLE_CLEARANCE_M : ℚ := mkRat 1 2
def MIN_HUMAN_CONF : ℚ := mkRat 13 20
def MAX_SPEED_NEAR_HUMAN : ℚ := mkRat 2 5
def MIN_CONF_FOR_MOVE : ℚ := mkRat 11 20
def HUMAN_SLOW_RADIUS_M : ℚ := 3
def HUMAN_STOP_RADIUS_M : ℚ := 1
def REVIEW_RISK_THRESHOLD : ℚ := mkRat 3 4

/-- Two-decimal rendering of a rational, as the `:.2f` f-string formats of
the source render their (exactly representable) values. -/
def fmtQ2 (q : ℚ) : String :=
  let m : ℤ := Int.ediv (200 * q.num + (q.den : ℤ)) (2 * (q.den : ℤ))
  (if m < 0 then "-" else "")
    ++ toString (m.natAbs / 100) ++ "."
    ++ (if m.natAbs % 100 < 10 then "0" ++ toString (m.natAbs % 100)
        else toString (m.natAbs % 100))

/-- Accumulator state threaded through the rule blocks of
`evaluate_policies` (lines 34-41). -/
structure Acc where
  policy_hits : List String
  reasons : List String
  required_action : Option String
  risk_score : ℚ
  policy_state : String

/-- Initial accumulator: no hits, no reasons, risk 0, state SAFE. -/
def acc0 : Acc := ⟨[], [], none, 0, "SAFE"⟩

/-- Effective `max_speed` (line 68): the params value (default 0.0) for
`MOVE_TO`, else 0.0. -/
def propMaxSpeed (p : ActionProposal) : ℚ :=
  if p.intent = "MOVE_TO" then p.params.max_speed.getD 0 else 0

/-- Proposed destination x (line 79), defaulting to the current x. -/
def destX (t : Telemetry) (p : ActionProposal) : ℚ := p.params.x.getD t.x

/-- Proposed destination y (line 80), defaulting to the current y. -/
def destY (t : Telemetry) (p : ActionProposal) : ℚ := p.params.y.getD t.y

/-- Guard of the current-position geofence check (line 71): fires for every
intent. -/
def geoCurB (t : Telemetry) : Bool :=
  ! decide (GEOFENCE.min_x ≤ t.x ∧ t.x ≤ GEOFENCE.max_x
    ∧ GEOFENCE.min_y ≤ t.y ∧ t.y ≤ GEOFENCE.max_y)

/-- Guard of the destination geofence check (lines 78-81): `MOVE_TO` only. -/
def geoDestB (t : Telemetry) (p : ActionProposal) : Bool :=
  p.intent == "MOVE_TO" &&
    ! decide (GEOFENCE.min_x ≤ destX t p ∧ destX t p ≤ GEOFENCE.max_x
      ∧ GEOFENCE.min_y ≤ destY t p ∧ destY t p ≤ GEOFENCE.max_y)

/-- Guard of `OBSTACLE_CLEARANCE_03` (line 89). -/
def obstB (t : Telemetry) (p : ActionProposal) : Bool :=
  p.intent == "MOVE_TO" && decide (t.nearest_obstacle_m < MIN_OBSTACLE_CLEARANCE_M)

/-- `use_worker` (line 98): the worker candidate is strictly nearer. -/
def use_worker (t : Telemetry) : Bool :=
  decide (t.nearest_worker_dist < t.human_distance_m)

/-- `prox_dist` (line 99). -/
def prox_dist (t : Telemetry) : ℚ :=
  if use_worker t then t.nearest_worker_dist else t.human_distance_m

/-- `prox_conf` (line 100; computed by the source and never read again). -/
def prox_conf (t : Telemetry) : ℚ :=
  if use_worker t then t.nearest_worker_conf else t.human_conf

/-- Policy key of a proximity hit (lines 104, 114). -/
def proxKey (t : Telemetry) : String :=
  if use_worker t then "WORKER_PROXIMITY_06" else "HUMAN_PROXIMITY_02"

/-- Label of a proximity reason (line 101), lowercase variant. -/
def proxLabel (t : Telemetry) : String :=
  if use_worker t then "worker" else "human"

/-- Label of a proximity reason, `.capitalize()` variant. -/
def proxLabelCap (t : Telemetry) : String :=
  if use_worker t then "Worker" else "Human"

/-- Guard of the proximity full-stop branch (line 103). -/
def hstopB (t : Telemetry) (p : ActionProposal) : Bool :=
  p.intent == "MOVE_TO" && decide (prox_dist t < HUMAN_STOP_RADIUS_M)

/-- Guard of the proximity slow-down branch (line 113), including the `elif`
negation of the full-stop condition. -/
def hslowB (t : Telemetry) (p : ActionProposal) : Bool :=
  p.intent == "MOVE_TO" && ! decide (prox_dist t < HUMAN_STOP_RADIUS_M)
    && decide (prox_dist t < HUMAN_SLOW_RADIUS_M)

/-- Guard of `UNCERTAINTY_04` (line 125). -/
def uncB (t : Telemetry) (p : ActionProposal) : Bool :=
  p.intent == "MOVE_TO" && t.human_detected && decide (t.human_conf < MIN_HUMAN_CONF)

/-- Guard of `SAFE_SPEED_01` (lines 134-136). -/
def sspeedB (t : Telemetry) (p : ActionProposal) : Bool :=
  p.intent == "MOVE_TO" && decide (ZONE_SPEED_LIMITS t.zone < propMaxSpeed p)

/-- Guard of `HUMAN_CLEARANCE_02` (lines 145-146). -/
def hclearB (t : Telemetry) (p : ActionProposal) : Bool :=
  p.intent == "MOVE_TO" && t.human_detected && decide (MIN_HUMAN_CONF ≤ t.human_conf)
    && decide (MAX_SPEED_NEAR_HUMAN < propMaxSpeed p)

/-- Guard of the `MIN_CONF_FOR_MOVE` risk bump (line 156). -/
def minconfB (t : Telemetry) (p : ActionProposal) : Bool :=
  p.intent == "MOVE_TO" && t.human_detected && decide (t.human_conf < MIN_CONF_FOR_MOVE)

/-- GEOFENCE_01 on the current position (lines 70-75). -/
def stageGeoCur (t : Telemetry) (a : Acc) : Acc :=
  if geoCurB t then
    { a with
      policy_hits := a.policy_hits ++ ["GEOFENCE_01"],
      reasons := a.reasons
        ++ ["Robot out of geofence at (" ++ fmtQ2 t.x ++ "," ++ fmtQ2 t.y ++ ")."],
      risk_score := max a.risk_score (mkRat 19 20),
      policy_state := "STOP" }
  else a

/-- GEOFENCE_01 on the proposed destination (lines 77-86). -/
def stageGeoDest (t : Telemetry) (p : ActionProposal) (a : Acc) : Acc :=
  if geoDestB t p then
    { a with
      policy_hits :=
        if "GEOFENCE_01" ∈ a.policy_hits then a.policy_hits
        else a.policy_hits ++ ["GEOFENCE_01"],
      reasons := a.reasons
        ++ ["Proposed destination (" ++ fmtQ2 (destX t p) ++ "," ++ fmtQ2 (destY t p)
            ++ ") is outside geofence."],
      risk_score := max a.risk_score (mkRat 19 20),
      policy_state := "STOP" }
  else a

/-- OBSTACLE_CLEARANCE_03 (lines 88-94). -/
def stageObstacle (t : Telemetry) (p : ActionProposal) (a : Acc) : Acc :=
  if obstB t p then
    { a with
      policy_hits := a.policy_hits ++ ["OBSTACLE_CLEARANCE_03"],
      reasons := a.reasons
        ++ ["Obstacle clearance too low: " ++ fmtQ2 t.nearest_obstacle_m ++ "m < 0.50m."],
      required_action := some "Stop and replan with safer clearance.",
      risk_score := max a.risk_score (mkRat 9 10),
      policy_state := "REPLAN" }
  else a

/-- HUMAN / WORKER proximity if/elif (lines 96-122). -/
def stageProx (t : Telemetry) (p : ActionProposal) (a : Acc) : Acc :=
  if hstopB t p then
    { a with
      policy_hits := a.policy_hits ++ [proxKey t],
      reasons := a.reasons
        ++ [proxLabelCap t ++ " too close: " ++ fmtQ2 (prox_dist t)
            ++ "m < stop radius 1.0m. Full stop required."],
      required_action := some "Full stop — human within safety perimeter.",
      risk_score := max a.risk_score (mkRat 19 20),
      policy_state := "STOP" }
  else if hslowB t p then
    { a with
      policy_hits := a.policy_hits ++ [proxKey t],
      reasons := a.reasons
        ++ [proxLabelCap t ++ " nearby: " ++ fmtQ2 (prox_dist t)
            ++ "m < slow radius 3.0m. Reduce speed."],
      required_action := some ("Reduce speed to <= 0.40 while " ++ proxLabel t
        ++ " is within 3.0m."),
      risk_score := max a.risk_score (mkRat 4 5),
      policy_state := if a.policy_state = "SAFE" then "SLOW" else a.policy_state }
  else a

/-- UNCERTAINTY_04 (lines 124-131). -/
def stageUncertainty (t : Telemetry) (p : ActionProposal) (a : Acc) : Acc :=
  if uncB t p then
    { a with
      policy_hits := a.policy_hits ++ ["UNCERTAINTY_04"],
      reasons := a.reasons
        ++ ["Human detected but confidence too low: " ++ fmtQ2 t.human_conf ++ " < 0.65."],
      required_action :=
        some "Slow down and request operator review; improve perception confidence.",
      risk_score := max a.risk_score (mkRat 4 5),
      policy_state := if a.policy_state = "SAFE" then "SLOW" else a.policy_state }
  else a

/-- SAFE_SPEED_01 (lines 133-142). -/
def stageSafeSpeed (t : Telemetry) (p : ActionProposal) (a : Acc) : Acc :=
  if sspeedB t p then
    { a with
      policy_hits := a.policy_hits ++ ["SAFE_SPEED_01"],
      reasons := a.reasons
        ++ ["Speed too high for zone " ++ "\x27" ++ t.zone ++ "\x27" ++ ": "
            ++ fmtQ2 (propMaxSpeed p) ++ " > " ++ fmtQ2 (ZONE_SPEED_LIMITS t.zone) ++ "."],
      required_action := some ("Reduce max_speed to <= " ++ fmtQ2 (ZONE_SPEED_LIMITS t.zone) ++ "."),
      risk_score := max a.risk_score (mkRat 17 20),
      policy_state := if a.policy_state = "SAFE" then "SLOW" else a.policy_state }
  else a

/-- HUMAN_CLEARANCE_02 (lines 144-153): the hit is appended only when no
`HUMAN_PROXIMITY_02` hit is already present, but reason, required action,
risk and state update regardless. -/
def stageHumanClearance (t : Telemetry) (p : ActionProposal) (a : Acc) : Acc :=
  if hclearB t p then
    { a with
      policy_hits :=
        if "HUMAN_PROXIMITY_02" ∈ a.policy_hits then a.policy_hits
        else a.policy_hits ++ ["HUMAN_CLEARANCE_02"],
      reasons := a.reasons
        ++ ["Human nearby (conf=" ++ fmtQ2 t.human_conf ++ "); max_speed "
            ++ fmtQ2 (propMaxSpeed p) ++ " too high."],
      required_action := some "Reduce max_speed to <= 0.40 near humans.",
      risk_score := max a.risk_score (mkRat 22 25),
      policy_state := if a.policy_state = "SAFE" then "SLOW" else a.policy_state }
  else a

/-- MIN_CONF_FOR_MOVE risk bump (lines 155-157): risk only, no hit. -/
def stageMinConf (t : Telemetry) (p : ActionProposal) (a : Acc) : Acc :=
  if minconfB t p then { a with risk_score := max a.risk_score (mkRat 7 10) } else a

/-- HITL_05 (lines 159-162): fires only on aggregate risk at least 0.75 with
no other hit present. -/
def stageHitl (a : Acc) : Acc :=
  if REVIEW_RISK_THRESHOLD ≤ a.risk_score ∧ a.policy_hits = [] then
    { a with
      policy_hits := a.policy_hits ++ ["HITL_05"],
      reasons := a.reasons
        ++ ["Risk score " ++ fmtQ2 a.risk_score
            ++ " exceeds review threshold 0.75; human review required."] }
  else a

/-- Rule accumulation of `evaluate_policies` up to (and excluding) the HITL
trigger (lines 34-157), in source order. -/
def core8 (t : Telemetry) (p : ActionProposal) : Acc :=
  stageMinConf t p (stageHumanClearance t p (stageSafeSpeed t p
    (stageUncertainty t p (stageProx t p (stageObstacle t p
      (stageGeoDest t p (stageGeoCur t acc0)))))))

/-- Rule accumulation of `evaluate_policies` (lines 34-162), in source order. -/
def evalCore (t : Telemetry) (p : ActionProposal) : Acc :=
  stageHitl (core8 t p)

/-- Decision reduction of `evaluate_policies` (lines 164-192). -/
def decisionReduce (a : Acc) : GovernanceDecision :=
  if a.policy_hits ≠ [] then
    if REVIEW_RISK_THRESHOLD ≤ a.risk_score ∧ "GEOFENCE_01" ∉ a.policy_hits then
      ⟨"NEEDS_REVIEW", a.policy_hits, a.reasons, a.required_action,
        a.risk_score, a.policy_state⟩
    else
      ⟨"DENIED", a.policy_hits, a.reasons, a.required_action,
        a.risk_score, a.policy_state⟩
  else ⟨"APPROVED", [], [], none, a.risk_score, "SAFE"⟩

/-- `evaluate_policies` (`rules_python.py` lines 28-192). -/
def evaluate_policies (t : Telemetry) (p : ActionProposal) : GovernanceDecision :=
  decisionReduce (evalCore t p)

/-! ### Structural lemmas about the rule stages -/

theorem stageGeoCur_hits_empty (t : Telemetry) (a : Acc)
    (h : (stageGeoCur t a).policy_hits = []) :
    geoCurB t = false ∧ stageGeoCur t a = a := by
  by_cases hg : geoCurB t
  · rw [stageGeoCur, if_pos hg] at h; simp at h
  · exact ⟨by simpa using hg, by rw [stageGeoCur, if_neg hg]⟩

theorem stageGeoDest_hits_empty (t : Telemetry) (p : ActionProposal) (a : Acc)
    (h : (stageGeoDest t p a).policy_hits = []) :
    geoDestB t p = false ∧ stageGeoDest t p a = a := by
  by_cases hg : geoDestB t p
  · rw [stageGeoDest, if_pos hg] at h
    by_cases hm : "GEOFENCE_01" ∈ a.policy_hits <;> simp [hm] at h
    simp [h] at hm
  · exact ⟨by simpa using hg, by rw [stageGeoDest, if_neg hg]⟩

theorem stageObstacle_hits_empty (t : Telemetry) (p : ActionProposal) (a : Acc)
    (h : (stageObstacle t p a).policy_hits = []) :
    obstB t p = false ∧ stageObstacle t p a = a := by
  by_cases hg : obstB t p
  · rw [stageObstacle, if_pos hg] at h; simp at h
  · exact ⟨by simpa using hg, by rw [stageObstacle, if_neg hg]⟩

theorem stageProx_hits_empty (t : Telemetry) (p : ActionProposal) (a : Acc)
    (h : (stageProx t p a).policy_hits = []) :
    hstopB t p = false ∧ hslowB t p = false ∧ stageProx t p a = a := by
  by_cases hg : hstopB t p
  · rw [stageProx, if_pos hg] at h; simp at h
  · by_cases hs : hslowB t p
    · rw [stageProx, if_neg hg, if_pos hs] at h; simp at h
    · exact ⟨by simpa using hg, by simpa using hs, by rw [stageProx, if_neg hg, if_neg hs]⟩

theorem stageUncertainty_hits_empty (t : Telemetry) (p : ActionProposal) (a : Acc)
    (h : (stageUncertainty t p a).policy_hits = []) :
    uncB t p = false ∧ stageUncertainty t p a = a := by
  by_cases hg : uncB t p
  · rw [stageUncertainty, if_pos hg] at h; simp at h
  · exact ⟨by simpa using hg, by rw [stageUncertainty, if_neg hg]⟩

theorem stageSafeSpeed_hits_empty (t : Telemetry) (p : ActionProposal) (a : Acc)
    (h : (stageSafeSpeed t p a).policy_hits = []) :
    sspeedB t p = false ∧ stageSafeSpeed t p a = a := by
  by_cases hg : sspeedB t p
  · rw [stageSafeSpeed, if_pos hg] at h; simp at h
  · exact ⟨by simpa using hg, by rw [stageSafeSpeed, if_neg hg]⟩

theorem stageHumanClearance_hits_empty (t : Telemetry) (p : ActionProposal) (a : Acc)
    (h : (stageHumanClearance t p a).policy_hits = []) :
    hclearB t p = false ∧ stageHumanClearance t p a = a := by
  by_cases hg : hclearB t p
  · rw [stageHumanClearance, if_pos hg] at h
    by_cases hm : "HUMAN_PROXIMITY_02" ∈ a.policy_hits <;> simp [hm] at h
    simp [h] at hm
  · exact ⟨by simpa using hg, by rw [stageHumanClearance, if_neg hg]⟩

theorem stageMinConf_hits (t : Telemetry) (p : ActionProposal) (a : Acc) :
    (stageMinConf t p a).policy_hits = a.policy_hits := by
  rw [stageMinConf]; split_ifs <;> rfl

theorem stageMinConf_state (t : Telemetry) (p : ActionProposal) (a : Acc) :
    (stageMinConf t p a).policy_state = a.policy_state := by
  rw [stageMinConf]; split_ifs <;> rfl

theorem stageHitl_hits_empty (a : Acc) (h : (stageHitl a).policy_hits = []) :
    a.policy_hits = [] ∧ stageHitl a = a := by
  by_cases hg : REVIEW_RISK_THRESHOLD ≤ a.risk_score ∧ a.policy_hits = []
  · rw [stageHitl, if_pos hg] at h; simp at h
  · exact ⟨by
      by_contra hne
      rw [stageHitl, if_neg hg] at h
      exact hne h,
      by rw [stageHitl, if_neg hg]⟩

theorem stageHitl_state (a : Acc) : (stageHitl a).policy_state = a.policy_state := by
  rw [stageHitl]; split_ifs <;> rfl

theorem stageHitl_noop (a : Acc) (h : ¬ REVIEW_RISK_THRESHOLD ≤ a.risk_score) :
    stageHitl a = a := by
  rw [stageHitl, if_neg]
  exact fun hc => h hc.1

/-- The risk accumulated when no rule fired: 0, or 7/10 from the
minimum-confidence bump — in both cases at most 7/10 and below the 0.75
review threshold. -/
theorem stageMinConf_acc0_risk (t : Telemetry) (p : ActionProposal) :
    (stageMinConf t p acc0).risk_score ≤ mkRat 7 10 := by
  rw [stageMinConf]
  split_ifs <;> decide

/-- Hits emptiness propagated back through the pre-HITL rule chain: an empty
hit list after `core8` forces every rule guard to be false, and the whole
accumulation collapses to the minimum-confidence risk bump over the initial
accumulator. -/
theorem core8_empty (t : Telemetry) (p : ActionProposal)
    (h : (core8 t p).policy_hits = []) :
    geoCurB t = false ∧ geoDestB t p = false ∧ obstB t p = false ∧
      hstopB t p = false ∧ hslowB t p = false ∧ uncB t p = false ∧
      sspeedB t p = false ∧ hclearB t p = false ∧
      core8 t p = stageMinConf t p acc0 := by
  rw [core8] at h
  rw [stageMinConf_hits] at h
  obtain ⟨g7, e7⟩ := stageHumanClearance_hits_empty t p _ h
  rw [e7] at h
  obtain ⟨g6, e6⟩ := stageSafeSpeed_hits_empty t p _ h
  rw [e6] at h
  obtain ⟨g5, e5⟩ := stageUncertainty_hits_empty t p _ h
  rw [e5] at h
  obtain ⟨g4a, g4b, e4⟩ := stageProx_hits_empty t p _ h
  rw [e4] at h
  obtain ⟨g3, e3⟩ := stageObstacle_hits_empty t p _ h
  rw [e3] at h
  obtain ⟨g2, e2⟩ := stageGeoDest_hits_empty t p _ h
  rw [e2] at h
  obtain ⟨g1, e1⟩ := stageGeoCur_hits_empty t _ h
  refine ⟨g1, g2, g3, g4a, g4b, g5, g6, g7, ?_⟩
  rw [core8, e7, e6, e5, e4, e3, e2, e1]

/-- The HITL stage cannot fire: the risk reached with an empty hit list is at
most 7/10, below the 0.75 threshold. -/
theorem core8_empty_hitl_noop (t : Telemetry) (p : ActionProposal)
    (h : (core8 t p).policy_hits = []) : evalCore t p = core8 t p := by
  obtain ⟨-, -, -, -, -, -, -, -, hc⟩ := core8_empty t p h
  have hn : ¬ REVIEW_RISK_THRESHOLD ≤ (core8 t p).risk_score := by
    intro hr
    have h710 : ¬ REVIEW_RISK_THRESHOLD ≤ mkRat 7 10 := by decide
    rw [hc] at hr
    exact h710 (le_trans hr (stageMinConf_acc0_risk t p))
  rw [evalCore, stageHitl_noop _ hn]

/-- Hits emptiness through the whole rule chain, including the HITL stage. -/
theorem evalCore_empty (t : Telemetry) (p : ActionProposal)
    (h : (evalCore t p).policy_hits = []) :
    geoCurB t = false ∧ geoDestB t p = false ∧ obstB t p = false ∧
      hstopB t p = false ∧ hslowB t p = false ∧ uncB t p = false ∧
      sspeedB t p = false ∧ hclearB t p = false ∧
      evalCore t p = stageMinConf t p acc0 := by
  rw [evalCore] at h
  obtain ⟨h8, -⟩ := stageHitl_hits_empty _ h
  obtain ⟨g1, g2, g3, g4a, g4b, g5, g6, g7, hc⟩ := core8_empty t p h8
  refine ⟨g1, g2, g3, g4a, g4b, g5, g6, g7, ?_⟩
  rw [core8_empty_hitl_noop t p h8, hc]

/-! ### C3 -/

/-- A telemetry snapshot whose current position is outside the geofence. -/
def tOutOfGeofence : Telemetry where
  x := mkRat (-5) 1
  y := mkRat 5 1
  nearest_obstacle_m := mkRat 5 1

/-- A STOP proposal with empty params. -/
def stopProposal : ActionProposal := { intent := "STOP", params := {}, rationale := "" }

/-- C3 counterexample.  With the robot out of the geofence, a STOP proposal is
evaluated to DENIED (the current-position geofence check fires for every
intent), contradicting the claim that STOP is always APPROVED regardless of
position. -/
theorem stop_denied_out_of_geofence_counterexample :
    (evaluate_policies tOutOfGeofence stopProposal).decision = "DENIED" ∧
      "GEOFENCE_01" ∈ (evaluate_policies tOutOfGeofence stopProposal).policy_hits ∧
      (evaluate_policies tOutOfGeofence stopProposal).decision ≠ "APPROVED" := by
  refine ⟨by decide, by decide, by decide⟩

/-- C3 (amended).  Provided the robot's current position lies inside the
geofence, a STOP or WAIT proposal is always APPROVED with risk score 0,
state SAFE, and no policy hits; if the current position is outside the
geofence, even STOP and WAIT are DENIED through GEOFENCE_01. -/
theorem stop_wait_approved_in_geofence (t : Telemetry) (p : ActionProposal)
    (hintent : p.intent = "STOP" ∨ p.intent = "WAIT")
    (hin : GEOFENCE.min_x ≤ t.x ∧ t.x ≤ GEOFENCE.max_x
      ∧ GEOFENCE.min_y ≤ t.y ∧ t.y ≤ GEOFENCE.max_y) :
    evaluate_policies t p = ⟨"APPROVED", [], [], none, 0, "SAFE"⟩ := by
  have hmv : (p.intent == "MOVE_TO") = false := by
    rcases hintent with h | h <;> simp [h]
  have hgeo : geoCurB t = false := by simp [geoCurB, hin]
  have hrisk : ¬(REVIEW_RISK_THRESHOLD ≤ (0 : ℚ)) := by decide
  simp [evaluate_policies, evalCore, core8, stageGeoCur, hgeo, stageGeoDest, geoDestB, hmv,
    stageObstacle, obstB, stageProx, hstopB, hslowB, stageUncertainty, uncB,
    stageSafeSpeed, sspeedB, stageHumanClearance, hclearB, stageMinConf, minconfB,
    stageHitl, hrisk, decisionReduce, acc0]

/-- Safe in-geofence telemetry used by the witnesses. -/
def tAisleSafe : Telemetry where
  x := mkRat 5 1
  y := mkRat 5 1
  nearest_obstacle_m := mkRat 5 1

/-- Witness for C3: a concrete in-geofence STOP evaluates to APPROVED with
risk 0 and state SAFE. -/
theorem stop_wait_approved_in_geofence_witness :
    evaluate_policies tAisleSafe stopProposal = ⟨"APPROVED", [], [], none, 0, "SAFE"⟩ :=
  stop_wait_approved_in_geofence tAisleSafe stopProposal (Or.inl rfl) (by decide)

/-! ### C5 -/

theorem decisionReduce_decision (a : Acc) :
    (decisionReduce a).decision =
      (if (decisionReduce a).policy_hits = [] then "APPROVED"
       else if mkRat 3 4 ≤ (decisionReduce a).risk_score
           ∧ "GEOFENCE_01" ∉ (decisionReduce a).policy_hits then "NEEDS_REVIEW"
       else "DENIED") := by
  rw [decisionReduce]
  split_ifs with h1 h2 <;> simp_all [REVIEW_RISK_THRESHOLD]

/-- C5.  The decision reduction: an empty hit set yields APPROVED; a
non-empty hit set yields DENIED, except that aggregate risk at least 0.75
without a GEOFENCE_01 hit yields NEEDS_REVIEW. -/
theorem decision_reduction (t : Telemetry) (p : ActionProposal) :
    (evaluate_policies t p).decision =
      (if (evaluate_policies t p).policy_hits = [] then "APPROVED"
       else if mkRat 3 4 ≤ (evaluate_policies t p).risk_score
           ∧ "GEOFENCE_01" ∉ (evaluate_policies t p).policy_hits then "NEEDS_REVIEW"
       else "DENIED") :=
  decisionReduce_decision (evalCore t p)

/-! ### C10 -/

theorem stageGeoCur_no_hitl (t : Telemetry) (a : Acc)
    (h : "HITL_05" ∉ a.policy_hits) : "HITL_05" ∉ (stageGeoCur t a).policy_hits := by
  rw [stageGeoCur]; split_ifs <;> simp_all

theorem stageGeoDest_no_hitl (t : Telemetry) (p : ActionProposal) (a : Acc)
    (h : "HITL_05" ∉ a.policy_hits) : "HITL_05" ∉ (stageGeoDest t p a).policy_hits := by
  rw [stageGeoDest]; split_ifs <;> simp_all

theorem stageObstacle_no_hitl (t : Telemetry) (p : ActionProposal) (a : Acc)
    (h : "HITL_05" ∉ a.policy_hits) : "HITL_05" ∉ (stageObstacle t p a).policy_hits := by
  rw [stageObstacle]; split_ifs <;> simp_all

theorem stageProx_no_hitl (t : Telemetry) (p : ActionProposal) (a : Acc)
    (h : "HITL_05" ∉ a.policy_hits) : "HITL_05" ∉ (stageProx t p a).policy_hits := by
  rw [stageProx]
  split_ifs <;> simp_all [proxKey] <;> split_ifs <;> simp

theorem stageUncertainty_no_hitl (t : Telemetry) (p : ActionProposal) (a : Acc)
    (h : "HITL_05" ∉ a.policy_hits) : "HITL_05" ∉ (stageUncertainty t p a).policy_hits := by
  rw [stageUncertainty]; split_ifs <;> simp_all

theorem stageSafeSpeed_no_hitl (t : Telemetry) (p : ActionProposal) (a : Acc)
    (h : "HITL_05" ∉ a.policy_hits) : "HITL_05" ∉ (stageSafeSpeed t p a).policy_hits := by
  rw [stageSafeSpeed]; split_ifs <;> simp_all

theorem stageHumanClearance_no_hitl (t : Telemetry) (p : ActionProposal) (a : Acc)
    (h : "HITL_05" ∉ a.policy_hits) : "HITL_05" ∉ (stageHumanClearance t p a).policy_hits := by
  rw [stageHumanClearance]; split_ifs <;> simp_all

theorem core8_no_hitl (t : Telemetry) (p : ActionProposal) :
    "HITL_05" ∉ (core8 t p).policy_hits := by
  rw [core8, stageMinConf_hits]
  exact stageHumanClearance_no_hitl t p _ (stageSafeSpeed_no_hitl t p _
    (stageUncertainty_no_hitl t p _ (stageProx_no_hitl t p _
      (stageObstacle_no_hitl t p _ (stageGeoDest_no_hitl t p _
        (stageGeoCur_no_hitl t _ (by simp [acc0])))))))

theorem evalCore_no_hitl (t : Telemetry) (p : ActionProposal) :
    "HITL_05" ∉ (evalCore t p).policy_hits := by
  by_cases h : (core8 t p).policy_hits = []
  · rw [core8_empty_hitl_noop t p h, h]
    simp
  · have hne : evalCore t p = core8 t p := by
      rw [evalCore, stageHitl, if_neg]
      exact fun hc => h hc.2
    rw [hne]
    exact core8_no_hitl t p

theorem decisionReduce_risk (a : Acc) : (decisionReduce a).risk_score = a.risk_score := by
  rw [decisionReduce]; split_ifs <;> rfl

theorem evaluate_policies_hits_empty_iff (t : Telemetry) (p : ActionProposal) :
    (evaluate_policies t p).policy_hits = [] ↔ (evalCore t p).policy_hits = [] := by
  rw [evaluate_policies, decisionReduce]
  split_ifs with h1 h2 <;> simp_all

/-- C10.  The HITL_05 branch is unreachable: whenever no other rule appended a
hit, the accumulated risk score is at most 0.7, below the 0.75 review
threshold; hence HITL_05 never occurs among the policy hits, and every
decision with an empty hit set is APPROVED with risk at most 0.7. -/
theorem hitl_unreachable (t : Telemetry) (p : ActionProposal) :
    "HITL_05" ∉ (evaluate_policies t p).policy_hits ∧
      ((evaluate_policies t p).policy_hits = [] →
        (evaluate_policies t p).risk_score ≤ mkRat 7 10 ∧
          (evaluate_policies t p).decision = "APPROVED") := by
  constructor
  · have h := evalCore_no_hitl t p
    rw [evaluate_policies, decisionReduce]
    split_ifs <;> first | simpa using h | simp
  · intro hempty
    have he : (evalCore t p).policy_hits = [] :=
      (evaluate_policies_hits_empty_iff t p).mp hempty
    obtain ⟨-, -, -, -, -, -, -, -, hc⟩ := evalCore_empty t p he
    constructor
    · rw [evaluate_policies, decisionReduce_risk, hc]
      exact stageMinConf_acc0_risk t p
    · rw [evaluate_policies, decisionReduce, if_neg (not_ne_iff.mpr he)]

/-- A safe MOVE_TO proposal used to witness C10. -/
def mvProposal (px py sp : ℚ) : ActionProposal :=
  { intent := "MOVE_TO",
    params := { x := some px, y := some py, max_speed := some sp },
    rationale := "" }

/-- Witness for C10 at a concrete safe input: no HITL hit, empty hit set,
risk at most 0.7, decision APPROVED. -/
theorem hitl_unreachable_witness :
    "HITL_05" ∉ (evaluate_policies tAisleSafe (mvProposal 6 6 (mkRat 3 10))).policy_hits ∧
      (evaluate_policies tAisleSafe (mvProposal 6 6 (mkRat 3 10))).risk_score ≤ mkRat 7 10 ∧
      (evaluate_policies tAisleSafe (mvProposal 6 6 (mkRat 3 10))).decision = "APPROVED" :=
  ⟨(hitl_unreachable tAisleSafe (mvProposal 6 6 (mkRat 3 10))).1,
    (hitl_unreachable tAisleSafe (mvProposal 6 6 (mkRat 3 10))).2 (by decide)⟩

/-! ### C6 -/

theorem stageGeoCur_state (t : Telemetry) (a : Acc) :
    (stageGeoCur t a).policy_state = if geoCurB t then "STOP" else a.policy_state := by
  rw [stageGeoCur]; split_ifs <;> rfl

theorem stageGeoDest_state (t : Telemetry) (p : ActionProposal) (a : Acc) :
    (stageGeoDest t p a).policy_state = if geoDestB t p then "STOP" else a.policy_state := by
  rw [stageGeoDest]; split_ifs <;> rfl

theorem stageObstacle_state (t : Telemetry) (p : ActionProposal) (a : Acc) :
    (stageObstacle t p a).policy_state = if obstB t p then "REPLAN" else a.policy_state := by
  rw [stageObstacle]; split_ifs <;> rfl

theorem stageProx_state (t : Telemetry) (p : ActionProposal) (a : Acc) :
    (stageProx t p a).policy_state =
      if hstopB t p then "STOP"
      else if hslowB t p then (if a.policy_state = "SAFE" then "SLOW" else a.policy_state)
      else a.policy_state := by
  rw [stageProx]; split_ifs <;> rfl

theorem stageUncertainty_state (t : Telemetry) (p : ActionProposal) (a : Acc) :
    (stageUncertainty t p a).policy_state =
      if uncB t p then (if a.policy_state = "SAFE" then "SLOW" else a.policy_state)
      else a.policy_state := by
  rw [stageUncertainty]; split_ifs <;> rfl

theorem stageSafeSpeed_state (t : Telemetry) (p : ActionProposal) (a : Acc) :
    (stageSafeSpeed t p a).policy_state =
      if sspeedB t p then (if a.policy_state = "SAFE" then "SLOW" else a.policy_state)
      else a.policy_state := by
  rw [stageSafeSpeed]; split_ifs <;> rfl

theorem stageHumanClearance_state (t : Telemetry) (p : ActionProposal) (a : Acc) :
    (stageHumanClearance t p a).policy_state =
      if hclearB t p then (if a.policy_state = "SAFE" then "SLOW" else a.policy_state)
      else a.policy_state := by
  rw [stageHumanClearance]; split_ifs <;> rfl

theorem core8_state (t : Telemetry) (p : ActionProposal) :
    (core8 t p).policy_state =
      (if hstopB t p then "STOP"
       else if obstB t p then "REPLAN"
       else if geoCurB t || geoDestB t p then "STOP"
       else if hslowB t p || uncB t p || sspeedB t p || hclearB t p then "SLOW"
       else "SAFE") := by
  rw [core8, stageMinConf_state, stageHumanClearance_state, stageSafeSpeed_state,
    stageUncertainty_state, stageProx_state, stageObstacle_state, stageGeoDest_state,
    stageGeoCur_state]
  by_cases h1 : geoCurB t <;> by_cases h2 : geoDestB t p <;> by_cases h3 : obstB t p <;>
    by_cases h4 : hstopB t p <;> by_cases h5 : hslowB t p <;> by_cases h6 : uncB t p <;>
      by_cases h7 : sspeedB t p <;> by_cases h8 : hclearB t p <;>
        simp [acc0, h1, h2, h3, h4, h5, h6, h7, h8]

/-- C6 (amended).  The returned `policy_state` always lies in
the set SAFE / SLOW / STOP / REPLAN, and is computed by sequential
assignment: STOP if a human or worker full-stop rule fired; otherwise REPLAN
if the obstacle-clearance rule fired (overwriting a geofence STOP);
otherwise STOP if a geofence rule fired; otherwise SLOW if any slow rule
fired; otherwise SAFE.  It is the most restrictive fired state except that
OBSTACLE_CLEARANCE_03's REPLAN overwrites a geofence STOP. -/
theorem policy_state_characterization (t : Telemetry) (p : ActionProposal) :
    (evaluate_policies t p).policy_state =
      (if hstopB t p then "STOP"
       else if obstB t p then "REPLAN"
       else if geoCurB t || geoDestB t p then "STOP"
       else if hslowB t p || uncB t p || sspeedB t p || hclearB t p then "SLOW"
       else "SAFE") ∧
      (evaluate_policies t p).policy_state ∈ (["SAFE", "SLOW", "STOP", "REPLAN"] : List String) := by
  have hmain : (evaluate_policies t p).policy_state =
      (if hstopB t p then "STOP"
       else if obstB t p then "REPLAN"
       else if geoCurB t || geoDestB t p then "STOP"
       else if hslowB t p || uncB t p || sspeedB t p || hclearB t p then "SLOW"
       else "SAFE") := by
    by_cases hne : (evalCore t p).policy_hits = []
    · obtain ⟨g1, g2, g3, g4a, g4b, g5, g6, g7, -⟩ := evalCore_empty t p hne
      rw [evaluate_policies, decisionReduce, if_neg (not_ne_iff.mpr hne)]
      simp [g1, g2, g3, g4a, g4b, g5, g6, g7]
    · rw [evaluate_policies, decisionReduce, if_pos hne]
      by_cases hrev : REVIEW_RISK_THRESHOLD ≤ (evalCore t p).risk_score
          ∧ "GEOFENCE_01" ∉ (evalCore t p).policy_hits
      · rw [if_pos hrev]
        show (evalCore t p).policy_state = _
        rw [evalCore, stageHitl_state, core8_state]
      · rw [if_neg hrev]
        show (evalCore t p).policy_state = _
        rw [evalCore, stageHitl_state, core8_state]
  refine ⟨hmain, ?_⟩
  rw [hmain]
  split_ifs <;> simp

/-- Telemetry inside the geofence with an obstacle closer than the clearance
minimum. -/
def tGeoObstacle : Telemetry where
  x := mkRat 5 1
  y := mkRat 5 1
  nearest_obstacle_m := mkRat 3 10

/-- C6 counterexample.  With the destination outside the geofence and an
obstacle within clearance, both GEOFENCE_01 (state STOP under the claimed
order) and OBSTACLE_CLEARANCE_03 (state REPLAN) fire, yet the returned
`policy_state` is REPLAN — the obstacle rule overwrote the geofence STOP, so
the state is not the most restrictive across fired rules. -/
theorem policy_state_not_most_restrictive_counterexample :
    "GEOFENCE_01" ∈ (evaluate_policies tGeoObstacle (mvProposal 50 5 (mkRat 3 10))).policy_hits ∧
      "OBSTACLE_CLEARANCE_03"
        ∈ (evaluate_policies tGeoObstacle (mvProposal 50 5 (mkRat 3 10))).policy_hits ∧
      (evaluate_policies tGeoObstacle (mvProposal 50 5 (mkRat 3 10))).policy_state = "REPLAN" ∧
      "REPLAN" ≠ "STOP" := by
  refine ⟨by decide, by decide, by decide, by decide⟩

/-! ## Agentic planner (`backend/app/services/agentic_planner.py`)

The ReAct loop of `AgenticPlanner.propose` (lines 372-503).  The external LLM
is embedded as an oracle `llm : ℕ → Option (List RawStep)` giving, per replan
attempt, the parsed list of reasoning steps (`none` embeds both "all models
failed" and "parse failure", the two paths that return the deterministic
fallback immediately; they differ only in the reported model tag), together
with `model : ℕ → String` for the model name that answered.  Tool executions
(`get_world_state`, `check_policy`, ...) are side-effect free and only fill
the `observation` field of the audit trail, so they do not influence the
returned proposal; the embedding counts each executed step.  The sliding
memory's `denial_count(5)`, fixed for the duration of one call, is the
parameter `denialCount`. -/

/-- One decimal rendering of a rational (the `:.1f` f-string format). -/
def fmtQ1 (q : ℚ) : String :=
  let m : ℤ := Int.ediv (20 * q.num + (q.den : ℤ)) (2 * (q.den : ℤ))
  (if m < 0 then "-" else "")
    ++ toString (m.natAbs / 10) ++ "." ++ toString (m.natAbs % 10)

/-- Mission goal mapping, read through `goal.get("x", 0)` / `goal.get("y", 0)`. -/
structure Goal where
  x : ℚ := 0
  y : ℚ := 0

/-- The `action_input` dict of one parsed reasoning step; a `none` field is an
absent key, read through the source's `.get` defaults. -/
structure ActionInput where
  intent : Option String := none
  x : Option ℚ := none
  y : Option ℚ := none
  max_speed : Option ℚ := none
  rationale : Option String := none

/-- One parsed reasoning step `{thought, action, action_input}`. -/
structure RawStep where
  thought : String := ""
  action : String := ""
  action_input : ActionInput := {}

namespace AgenticPlanner

/-- Maximum reasoning steps per attempt (`agentic_planner.py` line 294). -/
def MAX_STEPS : ℕ := 6

/-- Maximum replans after denial (`agentic_planner.py` line 295). -/
def MAX_REPLANS : ℕ := 2

end AgenticPlanner

/-- The clamp `max(lo, min(hi, v))` used by `submit_action`. -/
def clampQ (lo hi v : ℚ) : ℚ := max lo (min hi v)

/-- The proposal built by the `submit_action` sentinel tool (lines 445-461):
coordinates clamped into `[0, 30] × [0, 20]`, speed clamped into `[0.1, 1.0]`,
rationale prefixed with the model tag. -/
def submitProposal (goal : Goal) (model_used : String) (ai : ActionInput) : ActionProposal :=
  let intent := ai.intent.getD "MOVE_TO"
  { intent := intent,
    params :=
      if intent = "MOVE_TO" then
        { x := some (clampQ 0 30 (ai.x.getD goal.x)),
          y := some (clampQ 0 20 (ai.y.getD goal.y)),
          max_speed := some (clampQ (mkRat 1 10) 1 (ai.max_speed.getD (mkRat 1 2))) }
      else {},
    rationale := "[" ++ model_used ++ "/agentic] "
      ++ ai.rationale.getD "Agent-generated action" }

/-- The reasoning-chain execution of one attempt (lines 433-470): walk the
parsed steps (at most `MAX_STEPS` of them), recording one thought step per
iteration, and stop right after the first `submit_action`.  Returns the
submitted proposal (if any) and the number of executed steps. -/
def runStepsAux (goal : Goal) (model_used : String) :
    List RawStep → ℕ → Option ActionProposal × ℕ
  | [], n => (none, n)
  | s :: rest, n =>
      if s.action = "submit_action" then
        (some (submitProposal goal model_used s.action_input), n + 1)
      else runStepsAux goal model_used rest (n + 1)

/-- Execute one attempt's reasoning chain over `steps_raw[:MAX_STEPS]`. -/
def runSteps (goal : Goal) (model_used : String) (steps : List RawStep) :
    Option ActionProposal × ℕ :=
  runStepsAux goal model_used (steps.take AgenticPlanner.MAX_STEPS) 0

/-- Planner-side zone speed limits (lines 550-551). -/
def plannerZoneLimit (zone : String) : ℚ :=
  if zone = "aisle" then mkRat 1 2
  else if zone = "loading_bay" then mkRat 2 5
  else if zone = "corridor" then mkRat 7 10
  else mkRat 1 2

/-- `AgenticPlanner._deterministic_fallback` (lines 523-557): STOP at the goal
or when a human is within 1 m; otherwise MOVE_TO the goal at a speed tightened
by human proximity, repeated denials, and the zone limit. -/
def _deterministic_fallback (t : Telemetry) (goal : Goal) (denialCount : ℕ) :
    ActionProposal :=
  if qAbs (qSub t.x goal.x) < mkRat 1 2 ∧ qAbs (qSub t.y goal.y) < mkRat 1 2 then
    { intent := "STOP", params := {}, rationale := "[agentic/fallback] Reached goal." }
  else if t.human_distance_m < 1 then
    { intent := "STOP", params := {},
      rationale := "[agentic/fallback] Human too close, stopping." }
  else
    let speed0 : ℚ := if t.human_distance_m < 3 then mkRat 3 10 else mkRat 1 2
    let speed1 : ℚ := if 2 ≤ denialCount then min speed0 (mkRat 3 10) else speed0
    let speed : ℚ := min speed1 (plannerZoneLimit t.zone)
    { intent := "MOVE_TO",
      params := { x := some goal.x, y := some goal.y, max_speed := some speed },
      rationale := "[agentic/fallback] Safe navigation at " ++ fmtQ1 speed
        ++ " m/s (zone: " ++ t.zone ++ ")." }

/-- The replan loop of `AgenticPlanner.propose` (lines 403-503), fuelled by
the number of remaining attempts.  Per attempt: a `none` oracle answer is the
all-models-failed path that returns the fallback at once; otherwise the
reasoning chain runs, the proposal (or fallback, when no `submit_action`
occurred) is pre-checked against the policies, and the loop returns it when
the pre-check approves or the attempts are exhausted, else replans.  The
fuel-0 case is the unreachable `return proposal` after the `for` loop.
Returns the proposal together with the total number of executed reasoning
steps. -/
def proposeFrom (t : Telemetry) (goal : Goal) (denialCount : ℕ)
    (llm : ℕ → Option (List RawStep)) (model : ℕ → String) :
    ℕ → ℕ → ℕ → ActionProposal → ActionProposal × ℕ
  | 0, _, n, last => (last, n)
  | fuel + 1, a, n, _ =>
      match llm a with
      | none => (_deterministic_fallback t goal denialCount, n)
      | some steps =>
          let r := runSteps goal (model a) steps
          let prop := r.1.getD (_deterministic_fallback t goal denialCount)
          if (evaluate_policies t prop).decision = "APPROVED"
              ∨ AgenticPlanner.MAX_REPLANS ≤ a then
            (prop, n + r.2)
          else proposeFrom t goal denialCount llm model fuel (a + 1) (n + r.2) prop

/-- `AgenticPlanner.propose`: run the replan loop over attempts
`0 .. MAX_REPLANS`. -/
def propose (t : Telemetry) (goal : Goal) (denialCount : ℕ)
    (llm : ℕ → Option (List RawStep)) (model : ℕ → String) : ActionProposal × ℕ :=
  proposeFrom t goal denialCount llm model (AgenticPlanner.MAX_REPLANS + 1) 0 0
    (_deterministic_fallback t goal denialCount)

/-! ### C8 -/

theorem runStepsAux_le (goal : Goal) (model_used : String) :
    ∀ (l : List RawStep) (n : ℕ), (runStepsAux goal model_used l n).2 ≤ n + l.length := by
  intro l
  induction l with
  | nil => intro n; simp [runStepsAux]
  | cons s rest ih =>
      intro n
      rw [runStepsAux]
      split_ifs
      · simp only [List.length_cons]
        omega
      · have := ih (n + 1)
        simp only [List.length_cons]
        omega

theorem runSteps_le (goal : Goal) (model_used : String) (steps : List RawStep) :
    (runSteps goal model_used steps).2 ≤ AgenticPlanner.MAX_STEPS := by
  have h := runStepsAux_le goal model_used (steps.take AgenticPlanner.MAX_STEPS) 0
  have hlen : (steps.take AgenticPlanner.MAX_STEPS).length ≤ AgenticPlanner.MAX_STEPS := by
    simpa using List.length_take_le AgenticPlanner.MAX_STEPS steps
  rw [runSteps]
  omega

theorem proposeFrom_le (t : Telemetry) (goal : Goal) (denialCount : ℕ)
    (llm : ℕ → Option (List RawStep)) (model : ℕ → String) :
    ∀ (fuel a n : ℕ) (last : ActionProposal),
      (proposeFrom t goal denialCount llm model fuel a n last).2
        ≤ n + fuel * AgenticPlanner.MAX_STEPS := by
  intro fuel
  induction fuel with
  | zero => intro a n last; simp [proposeFrom]
  | succ fuel ih =>
      intro a n last
      rw [proposeFrom]
      cases hllm : llm a with
      | none =>
          simp only [AgenticPlanner.MAX_STEPS]
          omega
      | some steps =>
          simp only
          split_ifs
          · have h2 := runSteps_le goal (model a) steps
            simp only [AgenticPlanner.MAX_STEPS] at h2 ⊢
            omega
          · have h1 := ih (a + 1) (n + (runSteps goal (model a) steps).2)
              ((runSteps goal (model a) steps).1.getD (_deterministic_fallback t goal denialCount))
            have h2 := runSteps_le goal (model a) steps
            simp only [AgenticPlanner.MAX_STEPS] at h1 h2 ⊢
            omega

/-- C8 (amended).  Per replan attempt the planner executes at most
`MAX_STEPS = 6` reasoning steps from the parsed step list (not 3), and one
call performs at most `MAX_STEPS × (MAX_REPLANS + 1) = 18` steps with
`MAX_REPLANS = 2`. -/
theorem planner_step_bounds :
    AgenticPlanner.MAX_STEPS = 6 ∧ AgenticPlanner.MAX_REPLANS = 2 ∧
      (∀ (goal : Goal) (model_used : String) (steps : List RawStep),
        (runSteps goal model_used steps).2 ≤ AgenticPlanner.MAX_STEPS) ∧
      (∀ (t : Telemetry) (goal : Goal) (denialCount : ℕ)
          (llm : ℕ → Option (List RawStep)) (model : ℕ → String),
        (propose t goal denialCount llm model).2
          ≤ AgenticPlanner.MAX_STEPS * (AgenticPlanner.MAX_REPLANS + 1)) := by
  refine ⟨rfl, rfl, runSteps_le, ?_⟩
  intro t goal denialCount llm model
  have h := proposeFrom_le t goal denialCount llm model (AgenticPlanner.MAX_REPLANS + 1) 0 0
    (_deterministic_fallback t goal denialCount)
  rw [propose]
  simp only [AgenticPlanner.MAX_STEPS, AgenticPlanner.MAX_REPLANS] at h ⊢
  omega

/-- Six tool-calling steps with no `submit_action`. -/
def sixToolSteps : List RawStep :=
  List.replicate 6 { action := "get_world_state" }

/-- C8 counterexample.  `MAX_STEPS` is 6, not 3: a parsed list of six tool
steps executes all six reasoning steps in one attempt, exceeding the claimed
bound of 3. -/
theorem max_steps_counterexample :
    AgenticPlanner.MAX_STEPS = 6 ∧ AgenticPlanner.MAX_STEPS ≠ 3 ∧
      (runSteps {} "gemini" sixToolSteps).2 = 6 ∧
      ¬ (runSteps {} "gemini" sixToolSteps).2 ≤ 3 := by
  refine ⟨rfl, by decide, by decide, by decide⟩

/-! ### C7 -/

theorem proposeFrom_deny_step (t : Telemetry) (goal : Goal) (denialCount : ℕ)
    (llm : ℕ → Option (List RawStep)) (model : ℕ → String)
    (fuel a n : ℕ) (last : ActionProposal) (steps : List RawStep)
    (hsome : llm a = some steps)
    (hdeny : (evaluate_policies t ((runSteps goal (model a) steps).1.getD
      (_deterministic_fallback t goal denialCount))).decision ≠ "APPROVED")
    (ha : ¬ AgenticPlanner.MAX_REPLANS ≤ a) :
    proposeFrom t goal denialCount llm model (fuel + 1) a n last =
      proposeFrom t goal denialCount llm model fuel (a + 1)
        (n + (runSteps goal (model a) steps).2)
        ((runSteps goal (model a) steps).1.getD (_deterministic_fallback t goal denialCount)) := by
  rw [proposeFrom, hsome]
  simp only
  rw [if_neg]
  rintro (h | h)
  · exact hdeny h
  · exact ha h

theorem proposeFrom_final_step (t : Telemetry) (goal : Goal) (denialCount : ℕ)
    (llm : ℕ → Option (List RawStep)) (model : ℕ → String)
    (fuel a n : ℕ) (last : ActionProposal) (steps : List RawStep)
    (hsome : llm a = some steps) (ha : AgenticPlanner.MAX_REPLANS ≤ a) :
    proposeFrom t goal denialCount llm model (fuel + 1) a n last =
      ((runSteps goal (model a) steps).1.getD (_deterministic_fallback t goal denialCount),
        n + (runSteps goal (model a) steps).2) := by
  rw [proposeFrom, hsome]
  simp only
  rw [if_pos (Or.inr ha)]

/-- C7 (amended).  When every replan attempt parses steps and every attempt's
proposal fails the governance pre-check, `propose` returns the final
attempt's (pre-denied) proposal unchanged: no WAIT proposal and no "manual
override" rationale is ever produced (the string does not occur in the
planner). -/
theorem planner_exhaustion_returns_last (t : Telemetry) (goal : Goal)
    (denialCount : ℕ) (llm : ℕ → Option (List RawStep)) (model : ℕ → String)
    (stepsF : ℕ → List RawStep)
    (hllm : ∀ a, a ≤ AgenticPlanner.MAX_REPLANS → llm a = some (stepsF a))
    (hdeny : ∀ a, a ≤ AgenticPlanner.MAX_REPLANS →
      (evaluate_policies t ((runSteps goal (model a) (stepsF a)).1.getD
        (_deterministic_fallback t goal denialCount))).decision ≠ "APPROVED") :
    (propose t goal denialCount llm model).1 =
      (runSteps goal (model 2) (stepsF 2)).1.getD (_deterministic_fallback t goal denialCount) := by
  rw [propose]
  rw [show AgenticPlanner.MAX_REPLANS + 1 = 2 + 1 from rfl]
  rw [proposeFrom_deny_step t goal denialCount llm model 2 0 0 _ (stepsF 0)
    (hllm 0 (by decide)) (hdeny 0 (by decide)) (by decide)]
  rw [show (2 : ℕ) = 1 + 1 from rfl]
  rw [proposeFrom_deny_step t goal denialCount llm model 1 1 _ _ (stepsF 1)
    (hllm 1 (by decide)) (hdeny 1 (by decide)) (by decide)]
  rw [show (1 : ℕ) = 0 + 1 from rfl]
  rw [proposeFrom_final_step t goal denialCount llm model 0 2 _ _ (stepsF 2)
    (hllm 2 (by decide)) (by decide)]

/-- A reasoning chain that always submits an over-speed MOVE_TO. -/
def overSpeedStep : RawStep :=
  { action := "submit_action",
    action_input := { intent := some "MOVE_TO", x := some 6, y := some 6,
                      max_speed := some (mkRat 9 10),
                      rationale := some "Proceed fast" } }

/-- An oracle that answers the same over-speed chain on every attempt. -/
def overSpeedLlm : ℕ → Option (List RawStep) := fun _ => some [overSpeedStep]

/-- The constant model tag of the demo oracle. -/
def gemModel : ℕ → String := fun _ => "gemini"

/-- The demo goal. -/
def demoGoal : Goal := { x := 6, y := 6 }

/-- C7 counterexample.  With pre-check denials on every attempt within one
tick budget, the planner returns the final (still denied) MOVE_TO proposal —
not a WAIT, and with a rationale that does not contain "manual override"
(the full rationale is shown). -/
theorem planner_exhaustion_counterexample :
    (propose tAisleSafe demoGoal 0 overSpeedLlm gemModel).1.intent = "MOVE_TO" ∧
      (propose tAisleSafe demoGoal 0 overSpeedLlm gemModel).1.intent ≠ "WAIT" ∧
      (propose tAisleSafe demoGoal 0 overSpeedLlm gemModel).1.rationale
        = "[gemini/agentic] Proceed fast" ∧
      (evaluate_policies tAisleSafe
        (propose tAisleSafe demoGoal 0 overSpeedLlm gemModel).1).decision
        = "NEEDS_REVIEW" := by
  refine ⟨by decide, by decide, by decide, by decide⟩

/-- Witness for C7 at the concrete always-denied oracle. -/
theorem planner_exhaustion_returns_last_witness :
    (propose tAisleSafe demoGoal 0 overSpeedLlm gemModel).1 =
      (runSteps demoGoal "gemini" [overSpeedStep]).1.getD
        (_deterministic_fallback tAisleSafe demoGoal 0) :=
  planner_exhaustion_returns_last tAisleSafe demoGoal 0 overSpeedLlm gemModel
    (fun _ => [overSpeedStep]) (fun _ _ => rfl)
    (fun _ _ => by
      exact (by decide :
        (evaluate_policies tAisleSafe ((runSteps demoGoal "gemini" [overSpeedStep]).1.getD
          (_deterministic_fallback tAisleSafe demoGoal 0))).decision ≠ "APPROVED"))

/-! ## Run-loop speed clamp (`run_service.py` lines 229-247) and C9 -/

/-- One waypoint of an in-memory plan queue. -/
structure Waypoint where
  x : ℚ
  y : ℚ
  max_speed : Option ℚ := none

/-- The proposal the run loop builds from a plan-queue waypoint
(lines 231-237): `MOVE_TO` with the waypoint's coordinates and its
`max_speed` (default 0.5). -/
def waypointProposal (wp : Waypoint) : ActionProposal :=
  { intent := "MOVE_TO",
    params := { x := some wp.x, y := some wp.y,
                max_speed := some (wp.max_speed.getD (mkRat 1 2)) },
    rationale := "Following LLM plan waypoint" }

/-- The run-loop clamp (lines 241-247): for `MOVE_TO`, replace `max_speed`
(default 0.5) by its minimum with the zone speed limit, before the policy
evaluator is invoked. -/
def zone_clamp (zone : String) (p : ActionProposal) : ActionProposal :=
  if p.intent = "MOVE_TO" then
    { p with params := { p.params with
        max_speed := some (min (p.params.max_speed.getD (mkRat 1 2))
          (ZONE_SPEED_LIMITS zone)) } }
  else p

/-- A plan waypoint whose speed lies below the 0.1 minimum. -/
def slowWaypoint : Waypoint := { x := 3, y := 4, max_speed := some (mkRat 1 20) }

/-- A plan waypoint with an ordinary speed, used by the C9 witness. -/
def demoWaypoint : Waypoint := { x := 3, y := 4, max_speed := some (mkRat 3 10) }

/-- A `submit_action` input requesting an out-of-range speed of 5. -/
def demoSubmitInput : ActionInput := { intent := some "MOVE_TO", max_speed := some 5 }

/-- C9 counterexample.  A plan-queue waypoint with `max_speed = 0.05` reaches
the policy evaluator with `max_speed = 0.05`: the run-loop clamp is
`min(speed, zone_limit)` only, so a speed below 0.1 is not raised into
`[0.1, 1.0]`. -/
theorem zone_clamp_below_min_counterexample :
    (zone_clamp "aisle" (waypointProposal slowWaypoint)).params.max_speed
        = some (mkRat 1 20) ∧
      ¬ mkRat 1 10 ≤ mkRat 1 20 := by
  refine ⟨by decide, by decide⟩

/-- C9 (amended).  Before the policy evaluator is invoked on a tick's
`MOVE_TO` proposal, its `max_speed` is capped above by the zone speed limit
(at most 0.7, hence at most 1.0); it is raised to at least 0.1 only if the
incoming speed already was at least 0.1 — which holds for every proposal the
agentic planner's `submit_action` builds (clamped into `[0.1, 1.0]`), but not
for a plan-queue waypoint carrying a smaller value. -/
theorem zone_clamp_bounds (zone : String) (p : ActionProposal) (goal : Goal)
    (model_used : String) (ai : ActionInput) (hmv : p.intent = "MOVE_TO") :
    (zone_clamp zone p).params.max_speed
        = some (min (p.params.max_speed.getD (mkRat 1 2)) (ZONE_SPEED_LIMITS zone)) ∧
      (zone_clamp zone p).params.max_speed.getD 0 ≤ ZONE_SPEED_LIMITS zone ∧
      ZONE_SPEED_LIMITS zone ≤ mkRat 7 10 ∧
      (mkRat 1 10 ≤ p.params.max_speed.getD (mkRat 1 2) →
        mkRat 1 10 ≤ (zone_clamp zone p).params.max_speed.getD 0
          ∧ (zone_clamp zone p).params.max_speed.getD 0 ≤ 1) ∧
      ((submitProposal goal model_used ai).intent = "MOVE_TO" →
        mkRat 1 10 ≤ (submitProposal goal model_used ai).params.max_speed.getD 0
          ∧ (submitProposal goal model_used ai).params.max_speed.getD 0 ≤ 1) := by
  have hlim : ZONE_SPEED_LIMITS zone ≤ mkRat 7 10 := by
    rw [ZONE_SPEED_LIMITS]; split_ifs <;> decide
  have hlim01 : mkRat 1 10 ≤ ZONE_SPEED_LIMITS zone := by
    rw [ZONE_SPEED_LIMITS]; split_ifs <;> decide
  have hz : (zone_clamp zone p).params.max_speed
      = some (min (p.params.max_speed.getD (mkRat 1 2)) (ZONE_SPEED_LIMITS zone)) := by
    rw [zone_clamp, if_pos hmv]
  refine ⟨hz, ?_, hlim, ?_, ?_⟩
  · rw [hz]
    simpa using min_le_right _ _
  · intro hin
    rw [hz]
    constructor
    · simpa using le_min hin hlim01
    · simp only [Option.getD_some]
      exact le_trans (le_trans (min_le_right _ _) hlim) (by decide)
  · intro hint
    rw [submitProposal] at hint ⊢
    simp only at hint
    rw [if_pos hint]
    simp only [Option.getD_some]
    constructor
    · exact le_max_left _ _
    · exact max_le (by decide) (le_trans (min_le_left _ _) (by decide))

/-- Witness for C9: the clamp at a concrete waypoint with speed 0.3 in an
aisle, and a concrete `submit_action` with an out-of-range requested speed 5
(clamped back into `[0.1, 1.0]`). -/
theorem zone_clamp_bounds_witness :
    (zone_clamp "aisle" (waypointProposal demoWaypoint)).params.max_speed
      = some (min (mkRat 3 10) (ZONE_SPEED_LIMITS "aisle")) ∧
    mkRat 1 10 ≤ (zone_clamp "aisle"
      (waypointProposal demoWaypoint)).params.max_speed.getD 0 ∧
    mkRat 1 10 ≤ (submitProposal demoGoal "gemini"
      demoSubmitInput).params.max_speed.getD 0 ∧
    (submitProposal demoGoal "gemini" demoSubmitInput).params.max_speed.getD 0 ≤ 1 := by
  have h := zone_clamp_bounds "aisle" (waypointProposal demoWaypoint) demoGoal "gemini"
    demoSubmitInput rfl
  obtain ⟨h1, -, -, h4, h5⟩ := h
  obtain ⟨h4a, -⟩ := h4 (by decide)
  obtain ⟨h5a, h5b⟩ := h5 (by decide)
  exact ⟨h1, h4a, h5a, h5b⟩

end SovereignOps
